import Mathlib

/-!
Shallow embedding of `main.py` of the eval-bot repository.

Strings are modelled as `List Char` (Python `str` is a sequence of code
points; `len` counts characters).  Python slices, `str.split`, `str.rstrip`,
the `in` substring test and `os.path.relpath` are embedded with their
CPython semantics on the inputs the program feeds them.
-/

namespace EvalBot

/-- Python whitespace test used by `str.rstrip()` and `str.split(None, ...)`;
the model covers the ASCII whitespace characters (space, tab, newline,
carriage return, vertical tab, form feed). -/
def isPySpace (c : Char) : Bool :=
  c = ' ' || c = '\t' || c = '\n' || c = '\r' || c = Char.ofNat 11 || c = Char.ofNat 12

/-- Python `str.rstrip()`: remove all trailing whitespace characters. -/
def pyRstrip (s : List Char) : List Char :=
  (s.reverse.dropWhile isPySpace).reverse

/-- Python substring test `needle in hay` on strings. -/
def pyInStr (needle : List Char) : List Char → Bool
  | [] => needle.isEmpty
  | c :: t => needle.isPrefixOf (c :: t) || pyInStr needle t

/-- Python `str.split(None, 1)`: drop leading whitespace; if nothing remains
the result is empty; otherwise take the first maximal non-whitespace token,
drop the whitespace run after it, and keep the remainder verbatim when it is
non-empty. -/
def pySplitMax1 (s : List Char) : List (List Char) :=
  let s1 := s.dropWhile isPySpace
  if s1 = [] then []
  else
    let tok := s1.takeWhile (fun c => !isPySpace c)
    let rest := (s1.dropWhile (fun c => !isPySpace c)).dropWhile isPySpace
    if rest = [] then [tok] else [tok, rest]

/-- The double-quote character (written by code point to keep literals plain). -/
def quoteChar : Char := Char.ofNat 34

/-- The apostrophe character (written by code point to keep literals plain). -/
def aposChar : Char := Char.ofNat 39

/-- Per-character expansion of CPython `html.escape` with its default
`quote=True`: `&`, `<`, `>`, `"`, `'` become entities; CPython performs the
five `str.replace` passes in an order that makes them equivalent to this
single character-wise map. -/
def escChar (c : Char) : List Char :=
  if c = '&' then ['&', 'a', 'm', 'p', ';']
  else if c = '<' then ['&', 'l', 't', ';']
  else if c = '>' then ['&', 'g', 't', ';']
  else if c = quoteChar then ['&', 'q', 'u', 'o', 't', ';']
  else if c = aposChar then ['&', '#', 'x', '2', '7', ';']
  else [c]

/-- CPython `html.escape` (default `quote=True`) on a whole string. -/
def escape (s : List Char) : List Char := (s.map escChar).flatten

/-- Restriction of CPython `html.unescape` to the five entities `html.escape`
produces; on `escape`'s outputs (whose only ampersands start one of these
five entities, everything else being copied verbatim) it agrees with the full
`html.unescape`. -/
def unescape5 : List Char → List Char
  | [] => []
  | c :: t =>
    if c = '&' then
      if ['a', 'm', 'p', ';'].isPrefixOf t then '&' :: unescape5 (t.drop 4)
      else if ['l', 't', ';'].isPrefixOf t then '<' :: unescape5 (t.drop 3)
      else if ['g', 't', ';'].isPrefixOf t then '>' :: unescape5 (t.drop 3)
      else if ['q', 'u', 'o', 't', ';'].isPrefixOf t then quoteChar :: unescape5 (t.drop 5)
      else if ['#', 'x', '2', '7', ';'].isPrefixOf t then aposChar :: unescape5 (t.drop 5)
      else c :: unescape5 t
    else c :: unescape5 t
  termination_by l => l.length
  decreasing_by all_goals simp [List.length_drop] <;> omega

/-- One extracted traceback frame, as in Python `traceback.FrameSummary`. -/
structure FrameSummary where
  filename : List Char
  lineno : Nat
  name : List Char
  line : List Char
deriving DecidableEq

/-- The sentinel test of `format_exception_with_traceback` (main.py line 150):
a frame belongs to the evaluated snippet when its filename is the literal
`"<string>"` or ends with `"ast.py"`. -/
def isSnipFrame (f : FrameSummary) : Bool :=
  f.filename = "<string>".data || "ast.py".data.isSuffixOf f.filename

/-- Index of the first frame satisfying `isSnipFrame`, as produced by
`next(enumerate(...))` over the extracted traceback. -/
def firstSnipIdx : List FrameSummary → Option Nat
  | [] => none
  | f :: t => if isSnipFrame f then some 0 else (firstSnipIdx t).map (· + 1)

/-- `first_snip_idx` of main.py lines 149-151: the first matching index, or
`-1` when no frame matches (the `next` default). -/
def findSnipIdx (tb : List FrameSummary) : Int :=
  match firstSnipIdx tb with
  | some i => (i : Int)
  | none => -1

/-- Python list slice `l[i:]`, including negative-index semantics:
a negative `i` counts from the end, clamped at the start of the list. -/
def pySliceFrom (i : Int) (l : List α) : List α :=
  if 0 ≤ i then l.drop i.toNat else l.drop ((l.length : Int) + i).toNat

/-- `stripped_tb = tb[first_snip_idx:]` of main.py line 152. -/
def strippedTb (tb : List FrameSummary) : List FrameSummary :=
  pySliceFrom (findSnipIdx tb) tb

/-- Accumulator-based splitting of a path on `/`, dropping empty components —
the component list CPython's `posixpath.relpath` works with
(`[x for x in path.split(sep) if x]`). -/
def splitCompAux (cur : List Char) : List Char → List (List Char)
  | [] => if cur = [] then [] else [cur.reverse]
  | c :: t =>
    if c = '/' then
      if cur = [] then splitCompAux [] t else cur.reverse :: splitCompAux [] t
    else splitCompAux (c :: cur) t

/-- Non-empty `/`-separated components of a path. -/
def splitComponents (p : List Char) : List (List Char) := splitCompAux [] p

/-- Length of the common prefix of two component lists, as computed by the
loop inside `posixpath.relpath`. -/
def commonPrefixLen : List (List Char) → List (List Char) → Nat
  | a :: as, b :: bs => if a = b then commonPrefixLen as bs + 1 else 0
  | _, _ => 0

/-- CPython `os.path.relpath(path, start)` on POSIX for absolute, already
normalized arguments (the `abspath` calls it performs are then the
identity): one `..` per unshared component of `start`, followed by the
unshared components of `path`; `.` when nothing remains. -/
def relpath (path start : List Char) : List Char :=
  let ps := splitComponents path
  let cs := splitComponents start
  let i := commonPrefixLen cs ps
  let rel := List.replicate (cs.length - i) "..".data ++ ps.drop i
  if rel = [] then ".".data else List.intercalate "/".data rel

/-- The per-frame rewrite of `create_traceback_message` (main.py lines
134-136): when the working directory occurs as a substring of the frame's
filename (Python `in`), replace the filename by its `os.path.relpath`
against the working directory. -/
def rewriteFrame (cwd : List Char) (f : FrameSummary) : FrameSummary :=
  if pyInStr cwd f.filename then { f with filename := relpath f.filename cwd } else f

/-- One line group of Python `traceback.format_list`: the `File`/`line`/`in`
header plus, when a source line is recorded, the indented source line. -/
def formatFrameLine (f : FrameSummary) : List Char :=
  "  File \"".data ++ f.filename ++ "\", line ".data ++ (Nat.repr f.lineno).data
    ++ ", in ".data ++ f.name ++ "\n".data
    ++ (if f.line = [] then [] else "    ".data ++ f.line ++ "\n".data)

/-- A raised Python exception as the Evaluator sees it: its type name, its
`str()` message, whether its class derives from `Exception` (as opposed to
being a `BaseException` outside that subtree, e.g. `SystemExit`), and its
extracted traceback frames. -/
structure PyExc where
  excType : List Char
  msg : List Char
  isExceptionDerived : Bool
  tb : List FrameSummary
deriving DecidableEq

/-- `create_traceback_message` (main.py lines 128-143) applied to an
explicitly supplied frame list, with the process working directory passed
as a parameter (`os.getcwd()`); the `frames is None` default re-extracts
from the exception, a branch the repository never takes since
`format_exception_with_traceback` always passes `frames`. -/
def create_traceback_message (cwd : List Char) (error : PyExc)
    (frames : List FrameSummary) : List Char :=
  let frames' := frames.map (rewriteFrame cwd)
  let traceback_details := (frames'.map formatFrameLine).flatten
  let error_details := if error.msg = [] then [] else ": ".data ++ error.msg
  "Traceback (most recent call last):\n".data ++ traceback_details
    ++ error.excType ++ error_details

/-- `format_exception_with_traceback` (main.py lines 146-153): strip the
extracted traceback at the first sentinel frame and render the message. -/
def format_exception_with_traceback (cwd : List Char) (excp : PyExc) : List Char :=
  create_traceback_message cwd excp (strippedTb excp.tb)

/-- The error header returned by `execute_code` on the failure branch
(main.py line 106). -/
def errPrefix : List Char := "<b>Error while executing snippet:</b>\n\n".data

/-- `execute_code` (main.py lines 100-106).  The behaviour of
`meval.meval` on this request is its argument: either a returned final
value (`str()`-rendered, `none` for Python `None`) or a raised exception.
The `except Exception` clause converts a raised exception into the error
header plus the formatted traceback only when its class derives from
`Exception`; any other `BaseException` propagates out of the function. -/
def execute_code (cwd : List Char) (mevalResult : Except PyExc (Option (List Char))) :
    Except PyExc (List Char × Option (List Char)) :=
  match mevalResult with
  | .ok v => .ok ([], v)
  | .error e =>
    if e.isExceptionDerived then
      .ok (errPrefix, some (format_exception_with_traceback cwd e))
    else .error e

/-- An outbound transport action performed by the handler, in order. -/
inductive Action where
  | replyText (txt : List Char)
  | deleteMessage
  | replyDocument (content : List Char) (caption : List Char)
  | editText (txt : List Char)
deriving DecidableEq

/-- The `<pre><code class='language-python'>` opening tag of the inline
rendering (apostrophes spliced in as code points). -/
def codeOpenTag : List Char :=
  "<pre><code class=".data ++ [aposChar] ++ "language-python".data ++ [aposChar] ++ ">".data

/-- The `</code></pre>` closing tag of the inline rendering. -/
def codeCloseTag : List Char := "</code></pre>".data

/-- The `result` string built by `handle_response` (main.py lines 121-124):
prefix, escaped input block, escaped output block. -/
def inlineRender (px command_args output : List Char) : List Char :=
  px ++ "<b>Input:</b>\n".data
    ++ codeOpenTag ++ escape command_args ++ codeCloseTag ++ "\n".data
    ++ "<b>Output:</b>\n".data
    ++ codeOpenTag ++ escape output ++ codeCloseTag ++ "\n".data

/-- Caption of the file-attachment reply (main.py line 116). -/
def fileCaption : List Char := "Output is too large to be sent as a text message.".data

/-- `handle_response` (main.py lines 109-125) as the ordered list of
transport actions it performs: over 4096 characters of output, delete the
placeholder and send the full output as a document (whose random
8-hex-digit uppercase name carries no information and is not modelled);
otherwise edit the placeholder with the inline rendering. -/
def handle_response (px command_args output : List Char) : List Action :=
  if output.length > 4096 then
    [.deleteMessage, .replyDocument output fileCaption]
  else
    [.editText (inlineRender px command_args output)]

/-- Usage reminder sent by `handle_eval` when `/run` has no argument
(main.py lines 66-69). -/
def usageMsg : List Char :=
  "To execute Python code, please include the code you wish to run. Use the command /run followed by your code.".data

/-- Placeholder text sent before execution (main.py line 74). -/
def placeholderMsg : List Char := "<i>Executing your code...</i>".data

/-- Result of one `handle_eval` run: the transport actions performed in
order, whether `execute_code` was reached, and an exception that escaped
the handler (when `execute_code` re-raised). -/
structure HandleEvalRun where
  actions : List Action
  evaluatorInvoked : Bool
  uncaught : Option PyExc
deriving DecidableEq

/-- `handle_eval` (main.py lines 52-97).  `text` is the full message text;
the command-routing layer's `context.args` is `text.split()[1:]`, so the
`len(context.args) < 1` guard holds exactly when `text.split(None, 1)` has
no second part.  `captured` is what the script wrote into the capture
buffer through the injected `print` during execution, and `mevalResult` is
the outcome `meval.meval` reports; both describe the same run.  On success
a non-`None` final value is printed into the buffer (appending a newline),
the buffer is right-stripped, and `handle_response` runs; a `BaseException`
not caught by `execute_code` escapes after the placeholder was sent. -/
def handle_eval (cwd text captured : List Char)
    (mevalResult : Except PyExc (Option (List Char))) : HandleEvalRun :=
  if (pySplitMax1 text).length < 2 then
    ⟨[.replyText usageMsg], false, none⟩
  else
    let command := (pySplitMax1 text).getD 1 []
    match execute_code cwd mevalResult with
    | .error e => ⟨[.replyText placeholderMsg], true, some e⟩
    | .ok (px, r) =>
      let buffer := captured ++ (match r with | some v => v ++ "\n".data | none => [])
      let output_text := pyRstrip buffer
      ⟨.replyText placeholderMsg :: handle_response px command output_text, true, none⟩

/-- One call to the injected `print_output` binding (main.py lines 77-80):
the `str()` renderings of the positional arguments, the effective `sep` and
`end` strings, and whether the caller passed an explicit `file` keyword
argument. -/
structure PrintCall where
  args : List (List Char)
  sep : List Char
  endStr : List Char
  hasFileKw : Bool

/-- The text a Python `print` call emits to its destination file. -/
def renderedPrintText (call : PrintCall) : List Char :=
  List.intercalate call.sep call.args ++ call.endStr

/-- `print_output` (main.py lines 77-80) acting on the capture buffer:
returns the new buffer contents and the text written to the caller's own
`file` destination instead.  When no `file` keyword is passed the buffer is
installed as the destination; otherwise the call goes to the caller's file
untouched. -/
def print_output (call : PrintCall) (buffer : List Char) : List Char × List Char :=
  if call.hasFileKw then (buffer, renderedPrintText call)
  else (buffer ++ renderedPrintText call, [])

/-- Spec-side notion (§4.3 step 4) of a path lying under the working
directory: the directory followed by a path separator is a prefix of the
path.  Stated from the spec's words, for comparison with the code's
substring test. -/
def liesUnderSpec (path cwd : List Char) : Bool :=
  (cwd ++ ['/']).isPrefixOf path

/-- Whether an action trace is the file-attachment reply shape. -/
def isFileReply (acts : List Action) : Bool :=
  acts.any fun a => match a with | .replyDocument _ _ => true | _ => false

/-- The `Completed` variant of the spec's ExecutionOutcome, as `execute_code`
encodes it: empty prefix together with the optional final value. -/
def isCompletedOutcome (r : Except PyExc (List Char × Option (List Char))) : Prop :=
  ∃ v, r = .ok ([], v)

/-- The `Failed` variant of the spec's ExecutionOutcome, as `execute_code`
encodes it: the error header together with a traceback payload. -/
def isFailedOutcome (r : Except PyExc (List Char × Option (List Char))) : Prop :=
  ∃ t, r = .ok (errPrefix, some t)

/-! Supporting lemmas. -/

theorem escape_cons (c : Char) (t : List Char) : escape (c :: t) = escChar c ++ escape t := by
  simp [escape]

theorem unescape5_cons_ne (c : Char) (t : List Char) (h : ¬ c = '&') :
    unescape5 (c :: t) = c :: unescape5 t := by
  rw [unescape5]
  simp [h]

theorem firstSnipIdx_eq_none (l : List FrameSummary) (h : ∀ f ∈ l, isSnipFrame f = false) :
    firstSnipIdx l = none := by
  induction l with
  | nil => rfl
  | cons f t ih =>
    have hf := h f (by simp)
    simp [firstSnipIdx, hf, ih (fun g hg => h g (by simp [hg]))]

theorem firstSnipIdx_append (pre : List FrameSummary) (f : FrameSummary)
    (post : List FrameSummary) (hpre : ∀ g ∈ pre, isSnipFrame g = false)
    (hf : isSnipFrame f = true) :
    firstSnipIdx (pre ++ f :: post) = some pre.length := by
  induction pre with
  | nil => simp [firstSnipIdx, hf]
  | cons g t ih =>
    have hg := hpre g (by simp)
    simp [firstSnipIdx, hg, ih (fun g' hg' => hpre g' (by simp [hg']))]

theorem pyRstrip_append_space (x w : List Char) (hw : ∀ c ∈ w, isPySpace c = true) :
    pyRstrip (x ++ w) = pyRstrip x := by
  unfold pyRstrip
  rw [List.reverse_append, List.dropWhile_append]
  have hnil : List.dropWhile isPySpace w.reverse = [] :=
    List.dropWhile_eq_nil_iff.mpr (fun c hc => by simpa using hw c (by simpa using hc))
  simp [hnil]

theorem escape_replicate_a (n : Nat) : escape (List.replicate n 'a') = List.replicate n 'a' := by
  induction n with
  | zero => rfl
  | succ n ih => rw [List.replicate_succ, escape_cons, ih]; rfl

theorem pyInStr_of_isPrefixOf (needle hay : List Char) (h : needle.isPrefixOf hay = true) :
    pyInStr needle hay = true := by
  cases hay with
  | nil =>
    cases needle with
    | nil => rfl
    | cons c t => simp [List.isPrefixOf] at h
  | cons c t => simp [pyInStr, h]

theorem splitCompAux_append (cur xs ys : List Char) :
    splitCompAux cur (xs ++ '/' :: ys) = splitCompAux cur xs ++ splitCompAux [] ys := by
  induction xs generalizing cur with
  | nil =>
    by_cases hc : cur = [] <;> simp [splitCompAux, hc]
  | cons a t ih =>
    by_cases ha : a = '/'
    · subst ha
      by_cases hc : cur = [] <;> simp [splitCompAux, hc, ih]
    · simp [splitCompAux, ha, ih]

theorem commonPrefixLen_self_append (l r : List (List Char)) :
    commonPrefixLen l (l ++ r) = l.length := by
  induction l with
  | nil => cases r <;> rfl
  | cons a t ih => simp [commonPrefixLen, ih]

/-! Claim theorems. -/

/-- C1, counterexample: a two-frame traceback in which no frame matches the
sentinel.  The boundary index defaults to `-1`, not `0`, and the slice
`tb[-1:]` discards the first frame, so the sanitizer does not keep all
captured frames. -/
theorem strippedTb_no_sentinel_drops_first_frame :
    isSnipFrame ⟨"foo.py".data, 1, "f".data, []⟩ = false ∧
    isSnipFrame ⟨"bar.py".data, 2, "g".data, []⟩ = false ∧
    findSnipIdx [⟨"foo.py".data, 1, "f".data, []⟩, ⟨"bar.py".data, 2, "g".data, []⟩] = -1 ∧
    strippedTb [⟨"foo.py".data, 1, "f".data, []⟩, ⟨"bar.py".data, 2, "g".data, []⟩]
      = [⟨"bar.py".data, 2, "g".data, []⟩] ∧
    strippedTb [⟨"foo.py".data, 1, "f".data, []⟩, ⟨"bar.py".data, 2, "g".data, []⟩]
      ≠ [⟨"foo.py".data, 1, "f".data, []⟩, ⟨"bar.py".data, 2, "g".data, []⟩] := by
  refine ⟨by decide, by decide, by decide, by decide, by decide⟩

/-- C1, amended: when no extracted frame matches the sentinel, the boundary
index defaults to `-1` and the Python slice `tb[-1:]` keeps only the last
captured frame, discarding every earlier frame (so nothing is discarded only
when at most one frame was captured). -/
theorem strippedTb_no_sentinel_keeps_last (tb : List FrameSummary)
    (h : ∀ f ∈ tb, isSnipFrame f = false) :
    strippedTb tb = tb.drop (tb.length - 1) := by
  have hn : findSnipIdx tb = -1 := by
    unfold findSnipIdx
    rw [firstSnipIdx_eq_none tb h]
  unfold strippedTb
  rw [hn]
  unfold pySliceFrom
  rw [if_neg (by norm_num)]
  congr 1
  omega

/-- C1 amended, witness: a concrete two-frame sentinel-free traceback is cut
down to its last frame. -/
theorem strippedTb_no_sentinel_keeps_last_witness :
    strippedTb [⟨"aaa.py".data, 5, "h".data, []⟩, ⟨"bbb.py".data, 9, "k".data, []⟩]
      = List.drop 1 [⟨"aaa.py".data, 5, "h".data, []⟩, ⟨"bbb.py".data, 9, "k".data, []⟩] :=
  strippedTb_no_sentinel_keeps_last
    [⟨"aaa.py".data, 5, "h".data, []⟩, ⟨"bbb.py".data, 9, "k".data, []⟩] (by decide)

/-- C4: when the extracted traceback decomposes as plumbing frames (none
matching the sentinel), then a first sentinel frame, then the rest, the
sanitizer discards exactly the frames before the sentinel frame and keeps
that frame and everything after it. -/
theorem strippedTb_first_sentinel_boundary (pre : List FrameSummary) (f : FrameSummary)
    (post : List FrameSummary) (hpre : ∀ g ∈ pre, isSnipFrame g = false)
    (hf : isSnipFrame f = true) :
    strippedTb (pre ++ f :: post) = f :: post := by
  unfold strippedTb
  unfold findSnipIdx
  rw [firstSnipIdx_append pre f post hpre hf]
  unfold pySliceFrom
  rw [if_pos (by positivity)]
  simp

/-- C4, witness: one plumbing frame, the `"<string>"` sentinel frame, one
user frame after it. -/
theorem strippedTb_first_sentinel_boundary_witness :
    strippedTb [⟨"/app/main.py".data, 103, "execute_code".data, []⟩,
        ⟨"<string>".data, 1, "<module>".data, []⟩,
        ⟨"deep.py".data, 7, "inner".data, []⟩]
      = [⟨"<string>".data, 1, "<module>".data, []⟩, ⟨"deep.py".data, 7, "inner".data, []⟩] :=
  strippedTb_first_sentinel_boundary [⟨"/app/main.py".data, 103, "execute_code".data, []⟩]
    ⟨"<string>".data, 1, "<module>".data, []⟩
    [⟨"deep.py".data, 7, "inner".data, []⟩] (by decide) (by decide)

/-- C6: the markup escaping applied before embedding text in an inline reply
is reversible — unescaping the escaped text yields the original text,
character for character, for every input string. -/
theorem unescape_escape_roundtrip (s : List Char) : unescape5 (escape s) = s := by
  induction s with
  | nil => rw [show escape [] = [] from rfl, unescape5]
  | cons c t ih =>
    rw [escape_cons]
    by_cases h1 : c = '&'
    · subst h1
      rw [show escChar '&' = ['&', 'a', 'm', 'p', ';'] from rfl]
      rw [List.cons_append, unescape5]
      simp [List.isPrefixOf, ih]
    by_cases h2 : c = '<'
    · subst h2
      rw [show escChar '<' = ['&', 'l', 't', ';'] from rfl]
      rw [List.cons_append, unescape5]
      simp [List.isPrefixOf, ih]
    by_cases h3 : c = '>'
    · subst h3
      rw [show escChar '>' = ['&', 'g', 't', ';'] from rfl]
      rw [List.cons_append, unescape5]
      simp [List.isPrefixOf, ih]
    by_cases h4 : c = quoteChar
    · subst h4
      rw [show escChar quoteChar = ['&', 'q', 'u', 'o', 't', ';'] from by decide]
      rw [List.cons_append, unescape5]
      simp [List.isPrefixOf, ih]
    by_cases h5 : c = aposChar
    · subst h5
      rw [show escChar aposChar = ['&', '#', 'x', '2', '7', ';'] from by decide]
      rw [List.cons_append, unescape5]
      simp [List.isPrefixOf, ih]
    · rw [show escChar c = [c] from by simp [escChar, h1, h2, h3, h4, h5]]
      rw [List.singleton_append, unescape5_cons_ne c _ h1, ih]

/-- C7: when `/run` carries no script text (the message splits into at most
the command token), the handler performs exactly one action — the usage
reminder reply — and the Evaluator is never invoked, whatever the execution
environment would have done. -/
theorem handle_eval_no_args_usage_only (cwd text captured : List Char)
    (mevalResult : Except PyExc (Option (List Char)))
    (h : (pySplitMax1 text).length < 2) :
    handle_eval cwd text captured mevalResult
      = ⟨[Action.replyText usageMsg], false, none⟩ := by
  unfold handle_eval
  rw [if_pos h]

/-- C7, witness: the bare `/run` message yields only the usage reply and no
evaluation. -/
theorem handle_eval_no_args_usage_only_witness :
    (pySplitMax1 "/run".data).length < 2 ∧
    handle_eval "/app".data "/run".data [] (.ok none)
      = ⟨[Action.replyText usageMsg], false, none⟩ :=
  ⟨by decide, handle_eval_no_args_usage_only "/app".data "/run".data [] (.ok none) (by decide)⟩

/-- C3, counterexample: a raised `SystemExit` (a `BaseException` whose class
does not derive from `Exception`) is not caught by the `except Exception`
clause: `execute_code` re-raises it instead of converting it to a Failed
result, so an exception raised by user code does escape the Evaluator. -/
theorem execute_code_systemexit_escapes :
    execute_code "/app".data (.error ⟨"SystemExit".data, [], false, []⟩)
      = .error ⟨"SystemExit".data, [], false, []⟩ := by
  rfl

/-- C3, amended: every raised exception whose class derives from `Exception`
is caught at the Evaluator boundary and converted to the error header plus
the sanitized traceback; `BaseException` instances outside the `Exception`
subtree (such as `SystemExit` or `KeyboardInterrupt`) propagate instead. -/
theorem execute_code_catches_exception_subclass (cwd : List Char) (e : PyExc)
    (h : e.isExceptionDerived = true) :
    execute_code cwd (.error e)
      = .ok (errPrefix, some (format_exception_with_traceback cwd e)) := by
  simp [execute_code, h]

/-- C3 amended, witness: a `ZeroDivisionError` raised in the snippet is
converted into the Failed shape with the formatted traceback. -/
theorem execute_code_catches_exception_subclass_witness :
    execute_code "/app".data
        (.error ⟨"ZeroDivisionError".data, "division by zero".data, true,
          [⟨"<string>".data, 1, "<module>".data, []⟩]⟩)
      = .ok (errPrefix, some (format_exception_with_traceback "/app".data
          ⟨"ZeroDivisionError".data, "division by zero".data, true,
            [⟨"<string>".data, 1, "<module>".data, []⟩]⟩)) :=
  execute_code_catches_exception_subclass "/app".data
    ⟨"ZeroDivisionError".data, "division by zero".data, true,
      [⟨"<string>".data, 1, "<module>".data, []⟩]⟩ rfl

/-- C5, counterexample: on a raised `KeyboardInterrupt` (not an `Exception`
subclass) the Evaluator produces neither the Completed nor the Failed
variant — the call re-raises, so for this input the outcome is "neither". -/
theorem execute_code_keyboardinterrupt_neither_outcome :
    ¬ isCompletedOutcome
        (execute_code "/app".data (.error ⟨"KeyboardInterrupt".data, [], false, []⟩)) ∧
    ¬ isFailedOutcome
        (execute_code "/app".data (.error ⟨"KeyboardInterrupt".data, [], false, []⟩)) := by
  constructor <;> rintro ⟨x, hx⟩ <;> simp [execute_code] at hx

/-- C5, amended: whenever execution either returns a value or raises an
exception whose class derives from `Exception`, the Evaluator produces
exactly one of the Completed/Failed variants (never both, never neither),
and on the failure branch the payload is exactly the sanitized traceback;
a raised `BaseException` outside the `Exception` subtree instead produces
no outcome at all. -/
theorem execute_code_exactly_one_outcome (cwd : List Char)
    (mevalResult : Except PyExc (Option (List Char)))
    (h : ∀ e, mevalResult = .error e → e.isExceptionDerived = true) :
    ((isCompletedOutcome (execute_code cwd mevalResult) ∧
        ¬ isFailedOutcome (execute_code cwd mevalResult)) ∨
      (isFailedOutcome (execute_code cwd mevalResult) ∧
        ¬ isCompletedOutcome (execute_code cwd mevalResult))) ∧
    (∀ e, mevalResult = .error e →
      execute_code cwd mevalResult
        = .ok (errPrefix, some (format_exception_with_traceback cwd e))) := by
  have hpre : errPrefix ≠ [] := by decide
  cases mevalResult with
  | ok v =>
    refine ⟨Or.inl ⟨⟨v, rfl⟩, ?_⟩, ?_⟩
    · rintro ⟨t, ht⟩
      simp [execute_code] at ht
      exact hpre ht.1
    · intro e he
      cases he
  | error e =>
    have he := h e rfl
    refine ⟨Or.inr ⟨⟨format_exception_with_traceback cwd e, by simp [execute_code, he]⟩, ?_⟩, ?_⟩
    · rintro ⟨v, hv⟩
      simp [execute_code, he] at hv
      exact hpre hv.1
    · intro e' he'
      cases he'
      simp [execute_code, he]

/-- C5 amended, witness: a raised `ValueError` lands in exactly the Failed
variant. -/
theorem execute_code_exactly_one_outcome_witness :
    execute_code "/app".data (.error ⟨"ValueError".data, "bad".data, true, []⟩)
      = .ok (errPrefix, some (format_exception_with_traceback "/app".data
          ⟨"ValueError".data, "bad".data, true, []⟩)) :=
  (execute_code_exactly_one_outcome "/app".data
      (.error ⟨"ValueError".data, "bad".data, true, []⟩)
      (fun e he => by cases he; rfl)).2
    ⟨"ValueError".data, "bad".data, true, []⟩ rfl

/-- C9: the injected print binding writes its rendered text into the capture
buffer exactly when the caller passes no explicit `file` keyword argument;
with an explicit `file` argument the buffer is left untouched and the text
goes to the caller's destination instead, never into the captured output. -/
theorem print_output_file_kw_bypass (call : PrintCall) (buffer : List Char) :
    (call.hasFileKw = false →
      print_output call buffer = (buffer ++ renderedPrintText call, [])) ∧
    (call.hasFileKw = true →
      print_output call buffer = (buffer, renderedPrintText call)) := by
  constructor <;> intro h <;> simp [print_output, h]

/-- C9, witness: a call passing its own `file` leaves the buffer unchanged
and sends its text elsewhere. -/
theorem print_output_file_kw_bypass_witness :
    print_output ⟨["hi".data], " ".data, "\n".data, true⟩ "x".data
      = ("x".data, renderedPrintText ⟨["hi".data], " ".data, "\n".data, true⟩) :=
  (print_output_file_kw_bypass ⟨["hi".data], " ".data, "\n".data, true⟩ "x".data).2 rfl

/-- C10: the combined captured output is right-stripped of all trailing
whitespace before the formatting decision and the rendering, so two runs of
the same command whose capture buffers differ only by trailing whitespace
produce identical handler traces. -/
theorem handle_eval_trailing_whitespace_irrelevant (cwd text core w1 w2 : List Char)
    (hw1 : ∀ c ∈ w1, isPySpace c = true) (hw2 : ∀ c ∈ w2, isPySpace c = true) :
    handle_eval cwd text (core ++ w1) (.ok none)
      = handle_eval cwd text (core ++ w2) (.ok none) := by
  have h1 := pyRstrip_append_space core w1 hw1
  have h2 := pyRstrip_append_space core w2 hw2
  simp [handle_eval, execute_code, h1, h2]

/-- C10, witness: a capture buffer with trailing space-newline-tab yields
the same run as the clean buffer. -/
theorem handle_eval_trailing_whitespace_irrelevant_witness :
    handle_eval "/app".data "/run print(1)".data ("ab".data ++ " \n\t".data) (.ok none)
      = handle_eval "/app".data "/run print(1)".data ("ab".data ++ []) (.ok none) :=
  handle_eval_trailing_whitespace_irrelevant "/app".data "/run print(1)".data
    "ab".data " \n\t".data [] (by decide) (by decide)

/-- Length of the inline rendering: the lengths of the prefix and of the two
escaped blocks plus the 127 characters of fixed markup. -/
theorem inlineRender_length (px cmd out : List Char) :
    (inlineRender px cmd out).length
      = px.length + (escape cmd).length + (escape out).length + 127 := by
  simp only [inlineRender, List.append_assoc, List.length_append]
  have h1 : ("<b>Input:</b>\n".data).length = 14 := rfl
  have h2 : codeOpenTag.length = 35 := rfl
  have h3 : codeCloseTag.length = 13 := rfl
  have h4 : ("\n".data).length = 1 := rfl
  have h5 : ("<b>Output:</b>\n".data).length = 15 := rfl
  rw [h1, h2, h3, h4, h5]
  omega

/-- C2, counterexample: two requests whose combined input+output renderings
have exactly the same length (4224 characters each) get different reply
shapes — 97 characters of input with 4000 of output stays inline, while no
input with 4097 of output becomes a file attachment.  The choice is made on
`len(output) > 4096` alone, not on the combined rendering. -/
theorem reply_shape_not_rendering_length_function :
    (inlineRender [] (List.replicate 97 'a') (List.replicate 4000 'a')).length
      = (inlineRender [] [] (List.replicate 4097 'a')).length ∧
    isFileReply (handle_response [] (List.replicate 97 'a') (List.replicate 4000 'a')) = false ∧
    isFileReply (handle_response [] [] (List.replicate 4097 'a')) = true := by
  refine ⟨?_, ?_, ?_⟩
  · rw [inlineRender_length, inlineRender_length]
    simp only [escape_replicate_a, show escape ([] : List Char) = [] from rfl,
      List.length_replicate, List.length_nil]
  · rw [handle_response, if_neg (by norm_num [List.length_replicate])]
    rfl
  · rw [handle_response, if_pos (by norm_num [List.length_replicate])]
    rfl

/-- C2, amended: the inline-versus-file choice is a pure function of the
character length of the rendered output text alone (the captured text with
any appended value or traceback, right-stripped), compared against the fixed
4096 limit; the input text and the error prefix play no part in it. -/
theorem reply_shape_output_length_function (px1 cmd1 px2 cmd2 out1 out2 : List Char)
    (h : out1.length = out2.length) :
    isFileReply (handle_response px1 cmd1 out1)
      = isFileReply (handle_response px2 cmd2 out2) := by
  by_cases hc : out2.length > 4096 <;> simp [handle_response, h, hc, isFileReply]

/-- C2 amended, witness: equal output lengths with different inputs and
prefixes give the same reply shape. -/
theorem reply_shape_output_length_function_witness :
    isFileReply (handle_response [] "xy".data "out".data)
      = isFileReply (handle_response "p".data "longer input".data "abc".data) :=
  reply_shape_output_length_function [] "xy".data "p".data "longer input".data
    "out".data "abc".data (by decide)

/-- C8, amended: a retained frame's path is rewritten exactly when the
working directory occurs as a substring of it (Python `in`): a path that
does not contain the directory as a substring is left unchanged, and a path
lying under the directory (directory, separator, then a normalized relative
remainder) is rewritten to that remainder; but the substring test is weaker
than "lies under", so some paths outside the directory are rewritten too. -/
theorem rewriteFrame_cwd_substring (cwd : List Char) (f : FrameSummary) :
    (pyInStr cwd f.filename = false → rewriteFrame cwd f = f) ∧
    (∀ rest, f.filename = cwd ++ '/' :: rest → rest ≠ [] →
      List.intercalate "/".data (splitComponents rest) = rest →
      rewriteFrame cwd f = { f with filename := rest }) := by
  constructor
  · intro h
    simp [rewriteFrame, h]
  · intro rest hfn hne hnorm
    have hpre : cwd.isPrefixOf f.filename = true := by
      rw [hfn]
      exact List.isPrefixOf_iff_prefix.mpr ⟨'/' :: rest, rfl⟩
    have hin : pyInStr cwd f.filename = true := pyInStr_of_isPrefixOf _ _ hpre
    have hsplit : splitComponents f.filename = splitComponents cwd ++ splitComponents rest := by
      rw [hfn]
      exact splitCompAux_append [] cwd rest
    have hrs : ¬ splitComponents rest = [] := by
      intro h0
      rw [h0] at hnorm
      exact hne hnorm.symm
    have hrel : relpath f.filename cwd = rest := by
      simp only [relpath]
      rw [hsplit, commonPrefixLen_self_append]
      rw [Nat.sub_self, List.replicate_zero, List.nil_append, List.drop_left]
      rw [if_neg hrs, hnorm]
    simp [rewriteFrame, hin, hrel]

/-- C8, counterexample: `/home/app/x.py` does not lie under the working
directory `/app`, yet because `/app` occurs inside it as a substring the
sanitizer rewrites it (to `../home/app/x.py`) instead of leaving it
unchanged, refuting the claimed "if and only if". -/
theorem rewriteFrame_substring_not_under :
    liesUnderSpec "/home/app/x.py".data "/app".data = false ∧
    rewriteFrame "/app".data ⟨"/home/app/x.py".data, 3, "f".data, []⟩
      = ⟨"../home/app/x.py".data, 3, "f".data, []⟩ ∧
    rewriteFrame "/app".data ⟨"/home/app/x.py".data, 3, "f".data, []⟩
      ≠ ⟨"/home/app/x.py".data, 3, "f".data, []⟩ := by
  refine ⟨by decide, by decide, by decide⟩

/-- C8 amended, witness: a frame under `/app` is rewritten to the path
relative to it. -/
theorem rewriteFrame_cwd_substring_witness :
    rewriteFrame "/app".data ⟨"/app/sub/x.py".data, 7, "g".data, []⟩
      = ⟨"sub/x.py".data, 7, "g".data, []⟩ :=
  (rewriteFrame_cwd_substring "/app".data ⟨"/app/sub/x.py".data, 7, "g".data, []⟩).2
    "sub/x.py".data (by decide) (by decide) (by decide)

end EvalBot
